import Mathlib

set_option autoImplicit false

/-
A shallow embedding of src/fetch_emails_graph.py.

The script has two functions: `authenticate_graph` (msal cache lookup,
silent acquisition, device-code flow) and `fetch_emails_graph`
(authenticate, one HTTP GET to the Graph message-listing endpoint, print
loop over the parsed results).  Both are modelled as pure functions from
an environment (the responses of the msal library and of `requests.get`)
to a trace of observable events (console prints, library calls, browser
launch, the outgoing request) together with the returned value, where an
uncaught Python exception is an `Except.error`.  Exception payloads are
modelled as descriptive strings; their exact Python rendering (quoting,
`json.dumps` indentation) is abstracted, and no theorem depends on the
text of an exception, only on which prints surround it.
-/

namespace FetchEmailsGraph

/-- JSON values as delivered by the identity provider and the Graph
endpoint.  A parsed Python dict is modelled as an association list
(parsed JSON objects have unique keys; lookup takes the first binding). -/
inductive Json where
  | null : Json
  | bool (b : Bool) : Json
  | num (n : Int) : Json
  | str (s : String) : Json
  | arr (elems : List Json) : Json
  | obj (fields : List (String × Json)) : Json

/-- Python dict lookup with a default: `d.get(key, default)`. -/
def dictGet (fields : List (String × Json)) (key : String) (dflt : Json) : Json :=
  match fields with
  | [] => dflt
  | kv :: rest => if kv.1 = key then kv.2 else dictGet rest key dflt

/-- Python key membership test: `key in d`. -/
def hasKey (fields : List (String × Json)) (key : String) : Bool :=
  match fields with
  | [] => false
  | kv :: rest => kv.1 = key || hasKey rest key

/-- Python item access `d[key]`: raises KeyError when the key is absent. -/
def dictItem (fields : List (String × Json)) (key : String) : Except String Json :=
  match fields with
  | [] => .error ("KeyError: " ++ key)
  | kv :: rest => if kv.1 = key then .ok kv.2 else dictItem rest key

/-- Python truthiness of a JSON-shaped value (None, empty containers, the
empty string and zero are falsy). -/
def pyTruthy : Json → Bool
  | .null => false
  | .bool b => b
  | .num n => n != 0
  | .str s => s != ""
  | .arr xs => !xs.isEmpty
  | .obj fs => !fs.isEmpty

mutual
/-- Python `repr` of a JSON-shaped value.  Scalars follow Python exactly
(`None`, `True`, integers, single-quoted strings); container rendering
follows Python `repr` of the parsed structure.  Claims only ever evaluate
it on scalars. -/
def pyRepr : Json → String
  | .null => "None"
  | .bool b => if b then "True" else "False"
  | .num n => toString n
  | .str s => "\x27" ++ s ++ "\x27"
  | .arr xs => "[" ++ pyReprElems xs ++ "]"
  | .obj fs => "\x7b" ++ pyReprFields fs ++ "\x7d"

/-- Comma-separated `repr` of list elements. -/
def pyReprElems : List Json → String
  | [] => ""
  | [x] => pyRepr x
  | x :: rest => pyRepr x ++ ", " ++ pyReprElems rest

/-- Comma-separated `repr` of dict entries. -/
def pyReprFields : List (String × Json) → String
  | [] => ""
  | [kv] => "\x27" ++ kv.1 ++ "\x27: " ++ pyRepr kv.2
  | kv :: rest => "\x27" ++ kv.1 ++ "\x27: " ++ pyRepr kv.2 ++ ", " ++ pyReprFields rest
end

/-- Python `str` as used by f-string interpolation and `print`: a string
renders as itself, anything else as its `repr` (so None prints as `None`). -/
def pyStr : Json → String
  | .str s => s
  | .null => "None"
  | .bool b => if b then "True" else "False"
  | .num n => toString n
  | .arr xs => "[" ++ pyReprElems xs ++ "]"
  | .obj fs => "\x7b" ++ pyReprFields fs ++ "\x7d"

/-- `v.get(key, dflt)` in Python: succeeds on a dict, raises
AttributeError on any other receiver (in particular on None). -/
def pyGet (v : Json) (key : String) (dflt : Json) : Except String Json :=
  match v with
  | .obj fs => .ok (dictGet fs key dflt)
  | .null => .error "AttributeError: NoneType object has no attribute get"
  | _ => .error "AttributeError: object has no attribute get"

/-- Observable actions of one run: console prints (one event per `print`
call, the argument string without the trailing newline), the msal library
calls, the browser launch, and the outgoing HTTP request with its
Authorization header. -/
inductive Event where
  | print (line : String) : Event
  | acquireTokenSilent : Event
  | initiateDeviceFlow : Event
  | openBrowser (url : String) : Event
  | acquireTokenByDeviceFlow : Event
  | httpGet (url : String) (authHeader : String) : Event
deriving DecidableEq

/-- The responses the msal library gives back in one run: `accounts` from
`app.get_accounts()`, `silentResult` from `acquire_token_silent` (None or
a result dict), `deviceFlow` from `initiate_device_flow`, and
`deviceFlowResult` from `acquire_token_by_device_flow`. -/
structure AuthEnv where
  accounts : List String
  silentResult : Option (List (String × Json))
  deviceFlow : List (String × Json)
  deviceFlowResult : List (String × Json)

/-- Truthiness of the `result` variable while it is still None-or-dict. -/
def resultTruthy : Option (List (String × Json)) → Bool
  | none => false
  | some d => !d.isEmpty

/-- The separator line printed around the user instructions: 60 equals
signs (`"=" * 60`). -/
def sixtyEquals : String := String.mk (List.replicate 60 '=')

/-- Lines 20 to 41 of the script, the body of `authenticate_graph` up to
the final `if`: check the account cache, attempt silent acquisition when
an account exists, otherwise run the device-code flow.  Returns the event
trace and either the final `result` dict or the text of an uncaught
exception (the deliberate ValueError when the flow has no user code, or a
KeyError from `flow[...]`). -/
def acquireResult (env : AuthEnv) : List Event × Except String (List (String × Json)) :=
  let cachedStep : List Event × Option (List (String × Json)) :=
    if env.accounts.isEmpty then ([], none)
    else ([.print "Found cached account, attempting silent login...", .acquireTokenSilent],
          env.silentResult)
  if resultTruthy cachedStep.2 then
    (cachedStep.1, .ok (cachedStep.2.getD []))
  else
    let t1 := cachedStep.1 ++
      [.print "No cached token found. Starting interactive login...", .initiateDeviceFlow]
    if !(hasKey env.deviceFlow "user_code") then
      (t1, .error ("ValueError: Fail to create device flow. Err: " ++ pyRepr (.obj env.deviceFlow)))
    else
      let t2 := t1 ++ [.print ("\n" ++ sixtyEquals), .print "USER ACTION REQUIRED:"]
      match dictItem env.deviceFlow "message" with
      | .error e => (t2, .error e)
      | .ok msg =>
        let t3 := t2 ++ [.print (pyStr msg), .print (sixtyEquals ++ "\n")]
        match dictItem env.deviceFlow "verification_uri" with
        | .error e => (t3, .error e)
        | .ok uri =>
          (t3 ++ [.openBrowser (pyStr uri), .acquireTokenByDeviceFlow],
           .ok env.deviceFlowResult)

/-- Lines 43 to 48 of the script: inspect the final result dict.  When it
carries an access token, return that token; otherwise print the provider
error code and description and return None. -/
def finishAuth (result : List (String × Json)) : List Event × Option Json :=
  if hasKey result "access_token" then
    ([], some (dictGet result "access_token" .null))
  else
    ([.print ("Error: " ++ pyStr (dictGet result "error" .null)),
      .print ("Description: " ++ pyStr (dictGet result "error_description" .null))],
     none)

/-- `authenticate_graph`: the full authentication step, returning the
event trace and either an uncaught exception or the returned value (the
access token, or None on failure). -/
def authenticate_graph (env : AuthEnv) : List Event × Except String (Option Json) :=
  match acquireResult env with
  | (t, .error e) => (t, .error e)
  | (t, .ok result) =>
    let fin := finishAuth result
    (t ++ fin.1, .ok fin.2)

/-- One canned HTTP response: status code and the outcome of
`response.json()` (an error models a body that is not valid JSON). -/
structure HttpResponse where
  status : Nat
  body : Except String Json

/-- The environment of one full run: the msal responses and the outcome
of `requests.get` (a transport-level error, or a response). -/
structure FetchEnv where
  auth : AuthEnv
  http : Except String HttpResponse

/-- The projection of one message printed by the loop.  Field values are
the JSON values the chained `get` calls produce (None when a field is
absent from the payload). -/
structure MessageSummary where
  sender : Json
  subject : Json
  receivedDateTime : Json
  bodyPreview : Json

/-- The sender extraction of one message:
`email.get("from", dict()).get("emailAddress", dict()).get("address")`. -/
def senderOf (email : Json) : Except String Json := do
  let f ← pyGet email "from" (.obj [])
  let ea ← pyGet f "emailAddress" (.obj [])
  pyGet ea "address" .null

/-- The four field extractions of one message, in source order (the From
line is interpolated first, so a failure there pre-empts the rest). -/
def extractSummary (email : Json) : Except String MessageSummary := do
  let sender ← senderOf email
  let subj ← pyGet email "subject" .null
  let date ← pyGet email "receivedDateTime" .null
  let preview ← pyGet email "bodyPreview" .null
  .ok ⟨sender, subj, date, preview⟩

/-- The printing loop over the results array
(`for i, email in enumerate(emails, 1)`), accumulating the printed block
events and the message summaries.  The numbered header line is printed
before any field is extracted, so a failing extraction leaves the header
of the failing message in the trace and stops the loop with its
exception. -/
def emailLoop : List Json → Nat → List Event × List MessageSummary × Except String Unit
  | [], _ => ([], [], .ok ())
  | email :: rest, i =>
    let hdr : Event := .print ("--- Email " ++ toString i ++ " ---")
    match extractSummary email with
    | .error e => ([hdr], [], .error e)
    | .ok s =>
      let block : List Event :=
        [hdr,
         .print ("From:    " ++ pyStr s.sender),
         .print ("Subject: " ++ pyStr s.subject),
         .print ("Date:    " ++ pyStr s.receivedDateTime),
         .print ("Preview: " ++ pyStr s.bodyPreview),
         .print ""]
      let next := emailLoop rest (i + 1)
      (block ++ next.1, s :: next.2.1, next.2.2)

/-- Python iteration over the object bound to `emails`: lists iterate
their elements, strings their characters, dicts their keys; other values
raise TypeError. -/
def pyIter : Json → Except String (List Json)
  | .arr xs => .ok xs
  | .str s => .ok (s.data.map fun c => .str (String.mk [c]))
  | .obj fs => .ok (fs.map fun kv => .str kv.1)
  | _ => .error "TypeError: object is not iterable"

/-- The Graph message-listing endpoint of the GET request (its query
parameters are fixed: top 5, receivedDateTime descending, the four
selected fields). -/
def endpoint : String := "https://graph.microsoft.com/v1.0/me/messages"

/-- `response.raise_for_status()` of the requests library: raises
HTTPError exactly for status codes 400 to 599. -/
def raisesForStatus (status : Nat) : Bool :=
  decide (400 ≤ status) && decide (status < 600)

/-- Lines 57 to 87 of the script: the success print, the GET request and
the try block around the response handling.  `token` is the value
authentication returned.  Every exception raised inside the try is
converted into the single printed error line; the final component records
the caught exception when the error branch ran (a FetchFailure). -/
def fetchStep (token : Json) (http : Except String HttpResponse) :
    List Event × List MessageSummary × Option String :=
  let t0 : List Event :=
    [.print "\nSuccessfully authenticated! Fetching emails via Microsoft Graph...\n"]
  let tryBody : List Event × List MessageSummary × Except String Unit :=
    match http with
    | .error e => ([.httpGet endpoint ("Bearer " ++ pyStr token)], [], .error e)
    | .ok resp =>
      let t1 : List Event := [.httpGet endpoint ("Bearer " ++ pyStr token)]
      if raisesForStatus resp.status then
        (t1, [], .error ("HTTPError: status " ++ toString resp.status))
      else
        match resp.body with
        | .error e => (t1, [], .error e)
        | .ok payload =>
          match pyGet payload "value" (.arr []) with
          | .error e => (t1, [], .error e)
          | .ok value =>
            match pyIter value with
            | .error e => (t1, [], .error e)
            | .ok emails =>
              let lp := emailLoop emails 1
              (t1 ++ lp.1, lp.2.1, lp.2.2)
  match tryBody.2.2 with
  | .ok _ => (t0 ++ tryBody.1, tryBody.2.1, none)
  | .error e =>
    (t0 ++ tryBody.1 ++ [.print ("An error occurred: " ++ e)], tryBody.2.1, some e)

/-- `fetch_emails_graph`: authenticate, abort with a message when no
usable token came back, otherwise run the fetch step.  The second
component is the run outcome: an `Except.error` is an exception escaping
to the operating system (authentication is called outside the try block). -/
def fetch_emails_graph (env : FetchEnv) : List Event × Except String Unit :=
  match authenticate_graph env.auth with
  | (t, .error e) => (t, .error e)
  | (t, .ok tokenOpt) =>
    let tokenOk := match tokenOpt with
      | none => false
      | some v => pyTruthy v
    if !tokenOk then
      (t ++ [.print "Authentication failed. Exiting."], .ok ())
    else
      let fs := fetchStep (tokenOpt.getD .null) env.http
      (t ++ fs.1, .ok ())

/-- The console lines of a trace, in order. -/
def printsOf (t : List Event) : List String :=
  t.filterMap fun e => match e with
    | .print s => some s
    | _ => none

/-- The number of HTTP requests attempted in a trace. -/
def httpAttempts (t : List Event) : Nat :=
  (t.filter fun e => match e with | .httpGet _ _ => true | _ => false).length

/-- The number of device-code flows initiated in a trace. -/
def deviceFlowAttempts (t : List Event) : Nat :=
  (t.filter fun e => match e with | .initiateDeviceFlow => true | _ => false).length

/-- The number of silent acquisition attempts in a trace. -/
def silentAttempts (t : List Event) : Nat :=
  (t.filter fun e => match e with | .acquireTokenSilent => true | _ => false).length

/-- Spec side: the expected printed block of message number `i` whose
payload carries the four selected fields with these string values. -/
def expectedBlock (i : Nat) (sender subj date preview : String) : List Event :=
  [.print ("--- Email " ++ toString i ++ " ---"),
   .print ("From:    " ++ sender),
   .print ("Subject: " ++ subj),
   .print ("Date:    " ++ date),
   .print ("Preview: " ++ preview),
   .print ""]

/-- Spec side: the expected blocks of a run over messages numbered from
`i`, one field quadruple (sender, subject, date, preview) per message. -/
def joinBlocks : Nat → List (String × String × String × String) → List Event
  | _, [] => []
  | i, q :: rest => expectedBlock i q.1 q.2.1 q.2.2.1 q.2.2.2 ++ joinBlocks (i + 1) rest

/-- Spec side: the message summaries expected from a list of field
quadruples, in order. -/
def summariesOfQuads (qs : List (String × String × String × String)) : List MessageSummary :=
  qs.map fun q => ⟨.str q.1, .str q.2.1, .str q.2.2.1, .str q.2.2.2⟩

/-- The message object carries all four selected fields as strings given
by the quadruple `q`, the sender nested at `from.emailAddress.address`. -/
def HasFields (e : Json) (q : String × String × String × String) : Prop :=
  ∃ fs, e = .obj fs ∧
    (∃ ffs, dictGet fs "from" (.obj []) = .obj ffs ∧
      ∃ efs, dictGet ffs "emailAddress" (.obj []) = .obj efs ∧
        dictGet efs "address" .null = .str q.1) ∧
    dictGet fs "subject" .null = .str q.2.1 ∧
    dictGet fs "receivedDateTime" .null = .str q.2.2.1 ∧
    dictGet fs "bodyPreview" .null = .str q.2.2.2

/-- The nested sender path `from.emailAddress.address` is missing from a
message object by key absence: the first absent key ends the path, every
key before it is present and bound to an object. -/
def MissingSenderPath (fs : List (String × Json)) : Prop :=
  hasKey fs "from" = false ∨
  (∃ ffs, dictGet fs "from" (.obj []) = .obj ffs ∧
    (hasKey ffs "emailAddress" = false ∨
     (∃ efs, dictGet ffs "emailAddress" (.obj []) = .obj efs ∧
       hasKey efs "address" = false)))

/-- The message-listing request fails: a transport-level error, or a
response with a 4xx or 5xx status (the statuses `raise_for_status`
raises for). -/
def RequestFails : Except String HttpResponse → Prop
  | .error _ => True
  | .ok r => 400 ≤ r.status ∧ r.status < 600

/-- The authentication step runs to its final result check without an
uncaught exception: either a cached account with a truthy silent result
short-circuits the device flow, or the initiated device flow carries the
user code, message and verification URI fields. -/
def AuthCompletes (env : AuthEnv) : Prop :=
  (env.accounts ≠ [] ∧ resultTruthy env.silentResult = true) ∨
  (hasKey env.deviceFlow "user_code" = true ∧
   hasKey env.deviceFlow "message" = true ∧
   hasKey env.deviceFlow "verification_uri" = true)

/-- Replace the value bound to "access_token" in a result dict, leaving
every other binding and the key structure unchanged. -/
def setTok (v : Json) (d : List (String × Json)) : List (String × Json) :=
  d.map fun kv => if kv.1 = "access_token" then (kv.1, v) else kv

/-- Replace the access token value in both msal result dicts of an
authentication environment. -/
def setTokAuth (v : Json) (a : AuthEnv) : AuthEnv :=
  { a with
    silentResult := a.silentResult.map (setTok v),
    deviceFlowResult := setTok v a.deviceFlowResult }

/-- Replace the access token value everywhere the identity library could
deliver it in a run environment. -/
def setToken (v : Json) (env : FetchEnv) : FetchEnv :=
  { env with auth := setTokAuth v env.auth }

/-- A sample well-formed message payload (all four selected fields
present, the sender nested at `from.emailAddress.address`). -/
def msgA : Json :=
  .obj [("from", .obj [("emailAddress", .obj [("address", .str "alice@example.com")])]),
        ("subject", .str "Hello"),
        ("receivedDateTime", .str "2024-01-02T03:04:05Z"),
        ("bodyPreview", .str "Hi there")]

/-- The field quadruple of `msgA`. -/
def quadA : String × String × String × String :=
  ("alice@example.com", "Hello", "2024-01-02T03:04:05Z", "Hi there")

/-- A second sample well-formed message payload. -/
def msgB : Json :=
  .obj [("from", .obj [("emailAddress", .obj [("address", .str "bob@example.com")])]),
        ("subject", .str "Re: Hello"),
        ("receivedDateTime", .str "2024-01-01T00:00:00Z"),
        ("bodyPreview", .str "Reply text")]

/-- The field quadruple of `msgB`. -/
def quadB : String × String × String × String :=
  ("bob@example.com", "Re: Hello", "2024-01-01T00:00:00Z", "Reply text")

/-- A sample message payload whose "from" key is present but bound to
null. -/
def msgNullFrom : Json :=
  .obj [("from", .null),
        ("subject", .str "Broken"),
        ("receivedDateTime", .str "2024-01-03T00:00:00Z"),
        ("bodyPreview", .str "Oops")]

/-- A sample message payload with no "from" key at all. -/
def msgNoFrom : Json :=
  .obj [("subject", .str "Anonymous"),
        ("receivedDateTime", .str "2024-01-04T00:00:00Z"),
        ("bodyPreview", .str "No sender")]

/- ------------------------------------------------------------------ -/
/- Helper lemmas on the dict operations and the loop.                 -/
/- ------------------------------------------------------------------ -/

theorem dictGet_of_hasKey_false (fs : List (String × Json)) (k : String) (dflt : Json)
    (h : hasKey fs k = false) : dictGet fs k dflt = dflt := by
  induction fs with
  | nil => rfl
  | cons kv rest ih =>
    simp only [hasKey, Bool.or_eq_false_iff, decide_eq_false_iff_not] at h
    simp only [dictGet, if_neg h.1]
    exact ih h.2

theorem ne_nil_of_hasKey (fs : List (String × Json)) (k : String)
    (h : hasKey fs k = true) : fs ≠ [] := by
  intro hnil
  rw [hnil] at h
  exact Bool.false_ne_true h

theorem isEmpty_false_of_hasKey (fs : List (String × Json)) (k : String)
    (h : hasKey fs k = true) : fs.isEmpty = false := by
  cases fs with
  | nil => exact absurd h (by simp [hasKey])
  | cons kv rest => rfl

theorem dictItem_of_hasKey (fs : List (String × Json)) (k : String)
    (h : hasKey fs k = true) : ∃ v, dictItem fs k = .ok v := by
  induction fs with
  | nil => exact absurd h (by simp [hasKey])
  | cons kv rest ih =>
    by_cases hk : kv.1 = k
    · exact ⟨kv.2, by simp [dictItem, hk]⟩
    · simp only [hasKey, Bool.or_eq_true, decide_eq_true_eq] at h
      rcases h with h | h
      · exact absurd h hk
      · rcases ih h with ⟨v, hv⟩
        exact ⟨v, by simp [dictItem, hk, hv]⟩

theorem extractSummary_of_hasFields (e : Json) (q : String × String × String × String)
    (h : HasFields e q) :
    extractSummary e = .ok ⟨.str q.1, .str q.2.1, .str q.2.2.1, .str q.2.2.2⟩ := by
  obtain ⟨fs, rfl, ⟨ffs, hfrom, efs, hea, haddr⟩, hsub, hdate, hprev⟩ := h
  simp [extractSummary, senderOf, pyGet, hfrom, hea, haddr, hsub, hdate, hprev,
    Bind.bind, Except.bind]

theorem emailLoop_append_forall₂ (emails : List Json)
    (qs : List (String × String × String × String))
    (h : List.Forall₂ HasFields emails qs) :
    ∀ (rest : List Json) (i : Nat),
    emailLoop (emails ++ rest) i =
      (joinBlocks i qs ++ (emailLoop rest (i + emails.length)).1,
       summariesOfQuads qs ++ (emailLoop rest (i + emails.length)).2.1,
       (emailLoop rest (i + emails.length)).2.2) := by
  induction h with
  | nil =>
    intro rest i
    simp [joinBlocks, summariesOfQuads]
  | @cons e q es qt he _ ih =>
    intro rest i
    have hsum := extractSummary_of_hasFields e q he
    simp only [List.cons_append, emailLoop, hsum, List.append_eq]
    rw [ih rest (i + 1)]
    simp [joinBlocks, expectedBlock, summariesOfQuads, pyStr, List.length_cons,
      Nat.add_assoc, Nat.add_comm, Nat.add_left_comm]

theorem emailLoop_forall₂ (emails : List Json)
    (qs : List (String × String × String × String))
    (h : List.Forall₂ HasFields emails qs) (i : Nat) :
    emailLoop emails i = (joinBlocks i qs, summariesOfQuads qs, .ok ()) := by
  have := emailLoop_append_forall₂ emails qs h [] i
  simpa [emailLoop] using this

theorem hasFields_msgA : HasFields msgA quadA :=
  ⟨_, rfl, ⟨_, rfl, _, rfl, rfl⟩, rfl, rfl, rfl⟩

theorem hasFields_msgB : HasFields msgB quadB :=
  ⟨_, rfl, ⟨_, rfl, _, rfl, rfl⟩, rfl, rfl, rfl⟩

/- ------------------------------------------------------------------ -/
/- Claims.                                                            -/
/- ------------------------------------------------------------------ -/

/-- Claim C1: for every token and every successful (2xx) HTTP response
whose JSON body's results array contains N message objects (each carrying
its four selected fields), the fetch step produces exactly N
MessageSummary entries in the same order as the input array, printing one
numbered block per message with that message's sender, subject, date and
preview verbatim from the payload. -/
theorem c1_fetch_lists_messages_in_order
    (token : Json) (resp : HttpResponse) (pfs : List (String × Json))
    (emails : List Json) (qs : List (String × String × String × String))
    (hstatus : 200 ≤ resp.status ∧ resp.status < 300)
    (hbody : resp.body = .ok (.obj pfs))
    (hvalue : dictGet pfs "value" (.arr []) = .arr emails)
    (hfields : List.Forall₂ HasFields emails qs) :
    fetchStep token (.ok resp) =
      (.print "\nSuccessfully authenticated! Fetching emails via Microsoft Graph...\n" ::
       .httpGet endpoint ("Bearer " ++ pyStr token) :: joinBlocks 1 qs,
       summariesOfQuads qs, none) ∧
    (summariesOfQuads qs).length = emails.length := by
  have hrs : raisesForStatus resp.status = false := by
    simp only [raisesForStatus, Bool.and_eq_false_iff, decide_eq_false_iff_not]
    left
    omega
  constructor
  · simp [fetchStep, hrs, hbody, pyGet, hvalue, pyIter,
      emailLoop_forall₂ emails qs hfields 1]
  · simp [summariesOfQuads, hfields.length_eq]

/-- Witness for C1 at a concrete two-message payload. -/
theorem c1_fetch_lists_messages_in_order_witness :
    ((200 : Nat) ≤ 200 ∧ (200 : Nat) < 300) ∧
    (fetchStep (.str "tok") (.ok ⟨200, .ok (.obj [("value", .arr [msgA, msgB])])⟩) =
      (.print "\nSuccessfully authenticated! Fetching emails via Microsoft Graph...\n" ::
       .httpGet endpoint ("Bearer " ++ pyStr (.str "tok")) :: joinBlocks 1 [quadA, quadB],
       summariesOfQuads [quadA, quadB], none) ∧
     (summariesOfQuads [quadA, quadB]).length = ([msgA, msgB] : List Json).length) :=
  ⟨⟨by omega, by omega⟩,
   c1_fetch_lists_messages_in_order (.str "tok")
     ⟨200, .ok (.obj [("value", .arr [msgA, msgB])])⟩
     [("value", .arr [msgA, msgB])] [msgA, msgB] [quadA, quadB]
     ⟨by decide, by decide⟩ rfl rfl
     (.cons hasFields_msgA (.cons hasFields_msgB .nil))⟩

theorem initiateDeviceFlow_not_mem_finishAuth (r : List (String × Json)) :
    Event.initiateDeviceFlow ∉ (finishAuth r).1 := by
  by_cases h : hasKey r "access_token" = true <;> simp [finishAuth, h]

theorem initiate_only_without_usable_cache (env2 : AuthEnv)
    (h : Event.initiateDeviceFlow ∈ (authenticate_graph env2).1) :
    env2.accounts = [] ∨ resultTruthy env2.silentResult = false := by
  cases hq : env2.accounts with
  | nil => exact Or.inl rfl
  | cons a l =>
    right
    cases hr : resultTruthy env2.silentResult with
    | false => rfl
    | true =>
      exfalso
      cases hs : env2.silentResult with
      | none => rw [hs] at hr; simp [resultTruthy] at hr
      | some d =>
        have hac : env2.accounts.isEmpty = false := by rw [hq]; rfl
        rw [hs] at hr
        have hauth : authenticate_graph env2 =
            (([.print "Found cached account, attempting silent login...",
               .acquireTokenSilent] : List Event) ++ (finishAuth d).1,
             .ok (finishAuth d).2) := by
          simp [authenticate_graph, acquireResult, hac, hs, hr]
        rw [hauth] at h
        simp at h
        exact initiateDeviceFlow_not_mem_finishAuth d h

/-- Claim C2: if a cached account exists and silent acquisition yields a
result containing an access token, `authenticate_graph` returns that
token; no device-code flow is initiated, no browser launch is attempted,
and the only console line is the cached-account notice (so no user code
or verification message is displayed). -/
theorem c2_cached_token_skips_device_flow
    (env : AuthEnv) (d : List (String × Json))
    (hacc : env.accounts ≠ [])
    (hsil : env.silentResult = some d)
    (htok : hasKey d "access_token" = true) :
    authenticate_graph env =
      ([.print "Found cached account, attempting silent login...", .acquireTokenSilent],
       .ok (some (dictGet d "access_token" .null))) ∧
    Event.initiateDeviceFlow ∉ (authenticate_graph env).1 ∧
    Event.acquireTokenByDeviceFlow ∉ (authenticate_graph env).1 ∧
    (∀ u, Event.openBrowser u ∉ (authenticate_graph env).1) ∧
    (∀ s, Event.print s ∈ (authenticate_graph env).1 →
       s = "Found cached account, attempting silent login...") := by
  have hac : env.accounts.isEmpty = false := by
    cases hq : env.accounts with
    | nil => exact absurd hq hacc
    | cons a l => rfl
  have hdne : d.isEmpty = false := isEmpty_false_of_hasKey d "access_token" htok
  have hmain : authenticate_graph env =
      ([.print "Found cached account, attempting silent login...", .acquireTokenSilent],
       .ok (some (dictGet d "access_token" .null))) := by
    simp [authenticate_graph, acquireResult, finishAuth, hac, hsil, resultTruthy, hdne, htok]
  refine ⟨hmain, ?_, ?_, ?_, ?_⟩ <;> rw [hmain] <;> simp

/-- Witness for C2 at a concrete cached environment. -/
theorem c2_cached_token_skips_device_flow_witness :
    ((["acct"] : List String) ≠ []) ∧
    hasKey [("access_token", Json.str "sekrit")] "access_token" = true ∧
    (authenticate_graph ⟨["acct"], some [("access_token", .str "sekrit")], [], []⟩ =
       ([.print "Found cached account, attempting silent login...", .acquireTokenSilent],
        .ok (some (dictGet [("access_token", Json.str "sekrit")] "access_token" .null))) ∧
     Event.initiateDeviceFlow ∉
       (authenticate_graph ⟨["acct"], some [("access_token", .str "sekrit")], [], []⟩).1 ∧
     Event.acquireTokenByDeviceFlow ∉
       (authenticate_graph ⟨["acct"], some [("access_token", .str "sekrit")], [], []⟩).1 ∧
     (∀ u, Event.openBrowser u ∉
       (authenticate_graph ⟨["acct"], some [("access_token", .str "sekrit")], [], []⟩).1) ∧
     (∀ s, Event.print s ∈
       (authenticate_graph ⟨["acct"], some [("access_token", .str "sekrit")], [], []⟩).1 →
        s = "Found cached account, attempting silent login...")) :=
  ⟨List.cons_ne_nil _ _, rfl,
   c2_cached_token_skips_device_flow
     ⟨["acct"], some [("access_token", .str "sekrit")], [], []⟩
     [("access_token", .str "sekrit")]
     (List.cons_ne_nil _ _) rfl rfl⟩

/-- Claim C9: a truthy silent result lacking an access token makes
`authenticate_graph` skip the device-code flow entirely, print the error
and description fields of the result, and return None; and the device
flow is initiated only when there is no cached account or the silent
result is falsy. -/
theorem c9_silent_error_result_skips_device_flow
    (env : AuthEnv) (d : List (String × Json))
    (hacc : env.accounts ≠ [])
    (hsil : env.silentResult = some d)
    (hne : d ≠ [])
    (hnot : hasKey d "access_token" = false) :
    authenticate_graph env =
      ([.print "Found cached account, attempting silent login...", .acquireTokenSilent,
        .print ("Error: " ++ pyStr (dictGet d "error" .null)),
        .print ("Description: " ++ pyStr (dictGet d "error_description" .null))],
       .ok none) ∧
    Event.initiateDeviceFlow ∉ (authenticate_graph env).1 ∧
    (∀ env2 : AuthEnv, Event.initiateDeviceFlow ∈ (authenticate_graph env2).1 →
       env2.accounts = [] ∨ resultTruthy env2.silentResult = false) := by
  have hac : env.accounts.isEmpty = false := by
    cases hq : env.accounts with
    | nil => exact absurd hq hacc
    | cons a l => rfl
  have hdne : d.isEmpty = false := by
    cases d with
    | nil => exact absurd rfl hne
    | cons kv rest => rfl
  have hmain : authenticate_graph env =
      ([.print "Found cached account, attempting silent login...", .acquireTokenSilent,
        .print ("Error: " ++ pyStr (dictGet d "error" .null)),
        .print ("Description: " ++ pyStr (dictGet d "error_description" .null))],
       .ok none) := by
    simp [authenticate_graph, acquireResult, finishAuth, hac, hsil, resultTruthy, hdne, hnot]
  refine ⟨hmain, ?_, fun env2 h => initiate_only_without_usable_cache env2 h⟩
  rw [hmain]
  simp

/-- Witness for C9 at a concrete error-dict silent result. -/
theorem c9_silent_error_result_skips_device_flow_witness :
    ((["acct"] : List String) ≠ []) ∧
    ([("error", Json.str "interaction_required"), ("error_description", Json.str "need ui")] ≠
       ([] : List (String × Json))) ∧
    hasKey [("error", Json.str "interaction_required"),
            ("error_description", Json.str "need ui")] "access_token" = false ∧
    (authenticate_graph
       ⟨["acct"], some [("error", .str "interaction_required"),
                        ("error_description", .str "need ui")], [], []⟩ =
       ([.print "Found cached account, attempting silent login...", .acquireTokenSilent,
         .print ("Error: " ++ pyStr (dictGet [("error", Json.str "interaction_required"),
           ("error_description", Json.str "need ui")] "error" .null)),
         .print ("Description: " ++ pyStr (dictGet [("error", Json.str "interaction_required"),
           ("error_description", Json.str "need ui")] "error_description" .null))],
        .ok none) ∧
     Event.initiateDeviceFlow ∉
       (authenticate_graph
         ⟨["acct"], some [("error", .str "interaction_required"),
                          ("error_description", .str "need ui")], [], []⟩).1 ∧
     (∀ env2 : AuthEnv, Event.initiateDeviceFlow ∈ (authenticate_graph env2).1 →
        env2.accounts = [] ∨ resultTruthy env2.silentResult = false)) :=
  ⟨List.cons_ne_nil _ _, List.cons_ne_nil _ _, rfl,
   c9_silent_error_result_skips_device_flow
     ⟨["acct"], some [("error", .str "interaction_required"),
                      ("error_description", .str "need ui")], [], []⟩
     [("error", .str "interaction_required"), ("error_description", .str "need ui")]
     (List.cons_ne_nil _ _) rfl (List.cons_ne_nil _ _) rfl⟩

theorem httpAttempts_append (a b : List Event) :
    httpAttempts (a ++ b) = httpAttempts a + httpAttempts b := by
  simp [httpAttempts, List.filter_append]

theorem silentAttempts_append (a b : List Event) :
    silentAttempts (a ++ b) = silentAttempts a + silentAttempts b := by
  simp [silentAttempts, List.filter_append]

theorem deviceFlowAttempts_append (a b : List Event) :
    deviceFlowAttempts (a ++ b) = deviceFlowAttempts a + deviceFlowAttempts b := by
  simp [deviceFlowAttempts, List.filter_append]

theorem httpAttempts_nil : httpAttempts [] = 0 := rfl

theorem httpAttempts_print (s : String) (t : List Event) :
    httpAttempts (Event.print s :: t) = httpAttempts t := rfl

theorem silentAttempts_nil : silentAttempts [] = 0 := rfl

theorem silentAttempts_print (s : String) (t : List Event) :
    silentAttempts (Event.print s :: t) = silentAttempts t := rfl

theorem deviceFlowAttempts_nil : deviceFlowAttempts [] = 0 := rfl

theorem deviceFlowAttempts_print (s : String) (t : List Event) :
    deviceFlowAttempts (Event.print s :: t) = deviceFlowAttempts t := rfl

theorem acquireResult_counts (env : AuthEnv) :
    httpAttempts (acquireResult env).1 = 0 ∧
    silentAttempts (acquireResult env).1 ≤ 1 ∧
    deviceFlowAttempts (acquireResult env).1 ≤ 1 := by
  unfold acquireResult
  rcases hm : dictItem env.deviceFlow "message" with e | v <;>
  rcases hu : dictItem env.deviceFlow "verification_uri" with e2 | v2 <;>
  by_cases hA : env.accounts.isEmpty = true <;>
  by_cases hT : resultTruthy env.silentResult = true <;>
  by_cases hK : hasKey env.deviceFlow "user_code" = true <;>
  simp only [resultTruthy] at hT <;>
  simp [hm, hu, hA, hT, hK, resultTruthy, httpAttempts, silentAttempts, deviceFlowAttempts]

theorem finishAuth_counts (d : List (String × Json)) :
    httpAttempts (finishAuth d).1 = 0 ∧
    silentAttempts (finishAuth d).1 = 0 ∧
    deviceFlowAttempts (finishAuth d).1 = 0 := by
  by_cases h : hasKey d "access_token" = true <;>
  simp [finishAuth, h, httpAttempts, silentAttempts, deviceFlowAttempts]

theorem authenticate_counts (env : AuthEnv) :
    httpAttempts (authenticate_graph env).1 = 0 ∧
    silentAttempts (authenticate_graph env).1 ≤ 1 ∧
    deviceFlowAttempts (authenticate_graph env).1 ≤ 1 := by
  have hc := acquireResult_counts env
  rcases h : acquireResult env with ⟨t, r⟩
  rw [h] at hc
  dsimp only at hc
  cases r with
  | error e => simpa [authenticate_graph, h] using hc
  | ok d =>
    obtain ⟨a1, a2, a3⟩ := hc
    obtain ⟨f1, f2, f3⟩ := finishAuth_counts d
    simp only [authenticate_graph, h, httpAttempts_append, silentAttempts_append,
      deviceFlowAttempts_append]
    omega

/-- Claim C3: whenever authentication reaches its final result check and
the result carries no access token, the program prints the provider error
code and description, `authenticate_graph` returns None, the email-fetch
HTTP request is never attempted, and neither silent acquisition nor the
device flow is retried (at most one attempt of each appears in the
trace). -/
theorem c3_auth_failure_aborts_run
    (env : FetchEnv) (t : List Event) (d : List (String × Json))
    (hacq : acquireResult env.auth = (t, .ok d))
    (hnot : hasKey d "access_token" = false) :
    authenticate_graph env.auth =
      (t ++ [.print ("Error: " ++ pyStr (dictGet d "error" .null)),
             .print ("Description: " ++ pyStr (dictGet d "error_description" .null))],
       .ok none) ∧
    fetch_emails_graph env =
      (t ++ [.print ("Error: " ++ pyStr (dictGet d "error" .null)),
             .print ("Description: " ++ pyStr (dictGet d "error_description" .null)),
             .print "Authentication failed. Exiting."],
       .ok ()) ∧
    httpAttempts (fetch_emails_graph env).1 = 0 ∧
    silentAttempts (fetch_emails_graph env).1 ≤ 1 ∧
    deviceFlowAttempts (fetch_emails_graph env).1 ≤ 1 := by
  have hc := acquireResult_counts env.auth
  rw [hacq] at hc
  dsimp only at hc
  obtain ⟨a1, a2, a3⟩ := hc
  have hauth : authenticate_graph env.auth =
      (t ++ [.print ("Error: " ++ pyStr (dictGet d "error" .null)),
             .print ("Description: " ++ pyStr (dictGet d "error_description" .null))],
       .ok none) := by
    simp [authenticate_graph, hacq, finishAuth, hnot]
  have hfetch : fetch_emails_graph env =
      (t ++ [.print ("Error: " ++ pyStr (dictGet d "error" .null)),
             .print ("Description: " ++ pyStr (dictGet d "error_description" .null)),
             .print "Authentication failed. Exiting."],
       .ok ()) := by
    simp [fetch_emails_graph, hauth]
  refine ⟨hauth, hfetch, ?_, ?_, ?_⟩ <;>
    rw [hfetch] <;>
    simp only [httpAttempts_append, silentAttempts_append, deviceFlowAttempts_append,
      httpAttempts_print, silentAttempts_print, deviceFlowAttempts_print,
      httpAttempts_nil, silentAttempts_nil, deviceFlowAttempts_nil] <;>
    omega

/-- Witness for C3 at a concrete silent result carrying only an error
code and description. -/
theorem c3_auth_failure_aborts_run_witness :
    (acquireResult ⟨["acct"], some [("error", Json.str "interaction_required"),
         ("error_description", Json.str "need ui")], [], []⟩ =
       ([.print "Found cached account, attempting silent login...", .acquireTokenSilent],
        .ok [("error", Json.str "interaction_required"),
             ("error_description", Json.str "need ui")])) ∧
    hasKey [("error", Json.str "interaction_required"),
            ("error_description", Json.str "need ui")] "access_token" = false ∧
    (authenticate_graph ⟨["acct"], some [("error", Json.str "interaction_required"),
         ("error_description", Json.str "need ui")], [], []⟩ =
       ([.print "Found cached account, attempting silent login...", .acquireTokenSilent] ++
        [.print ("Error: " ++ pyStr (dictGet [("error", Json.str "interaction_required"),
           ("error_description", Json.str "need ui")] "error" .null)),
         .print ("Description: " ++ pyStr (dictGet [("error", Json.str "interaction_required"),
           ("error_description", Json.str "need ui")] "error_description" .null))],
        .ok none) ∧
     fetch_emails_graph ⟨⟨["acct"], some [("error", Json.str "interaction_required"),
         ("error_description", Json.str "need ui")], [], []⟩, .ok ⟨200, .ok (.obj [])⟩⟩ =
       ([.print "Found cached account, attempting silent login...", .acquireTokenSilent] ++
        [.print ("Error: " ++ pyStr (dictGet [("error", Json.str "interaction_required"),
           ("error_description", Json.str "need ui")] "error" .null)),
         .print ("Description: " ++ pyStr (dictGet [("error", Json.str "interaction_required"),
           ("error_description", Json.str "need ui")] "error_description" .null)),
         .print "Authentication failed. Exiting."],
        .ok ()) ∧
     httpAttempts (fetch_emails_graph ⟨⟨["acct"], some [("error", Json.str "interaction_required"),
         ("error_description", Json.str "need ui")], [], []⟩, .ok ⟨200, .ok (.obj [])⟩⟩).1 = 0 ∧
     silentAttempts (fetch_emails_graph ⟨⟨["acct"], some [("error", Json.str "interaction_required"),
         ("error_description", Json.str "need ui")], [], []⟩, .ok ⟨200, .ok (.obj [])⟩⟩).1 ≤ 1 ∧
     deviceFlowAttempts (fetch_emails_graph ⟨⟨["acct"], some [("error", Json.str "interaction_required"),
         ("error_description", Json.str "need ui")], [], []⟩, .ok ⟨200, .ok (.obj [])⟩⟩).1 ≤ 1) :=
  ⟨rfl, rfl,
   c3_auth_failure_aborts_run
     ⟨⟨["acct"], some [("error", Json.str "interaction_required"),
        ("error_description", Json.str "need ui")], [], []⟩, .ok ⟨200, .ok (.obj [])⟩⟩
     [.print "Found cached account, attempting silent login...", .acquireTokenSilent]
     [("error", Json.str "interaction_required"), ("error_description", Json.str "need ui")]
     rfl rfl⟩

/-- Counterexample to C4 as stated: a 304 response (non-2xx) with a valid
JSON object body yields no FetchFailure at all: the try block completes
with no error print and no caught exception. -/
theorem c4_counterexample :
    ¬ (200 ≤ 304 ∧ 304 < 300) ∧
    fetchStep (.str "tok") (.ok ⟨304, .ok (.obj [])⟩) =
      ([.print "\nSuccessfully authenticated! Fetching emails via Microsoft Graph...\n",
        .httpGet endpoint ("Bearer " ++ pyStr (.str "tok"))], [], none) :=
  ⟨by omega, rfl⟩

/-- Claim C4 (amended): for every 4xx or 5xx HTTP response, or a
transport-level failure, the fetch step yields a FetchFailure: zero
MessageSummary entries, exactly one error line printed after the single
request attempt, and the program returns normally (no crash). -/
theorem c4_request_failure_yields_fetch_failure
    (env : FetchEnv) (tok : Json)
    (hA : (authenticate_graph env.auth).2 = .ok (some tok))
    (hT : pyTruthy tok = true)
    (hF : RequestFails env.http) :
    (∃ e, fetchStep tok env.http =
      ([.print "\nSuccessfully authenticated! Fetching emails via Microsoft Graph...\n",
        .httpGet endpoint ("Bearer " ++ pyStr tok),
        .print ("An error occurred: " ++ e)], [], some e)) ∧
    fetch_emails_graph env =
      ((authenticate_graph env.auth).1 ++ (fetchStep tok env.http).1, .ok ()) ∧
    httpAttempts (fetch_emails_graph env).1 = 1 := by
  have h1 : ∃ e, fetchStep tok env.http =
      ([.print "\nSuccessfully authenticated! Fetching emails via Microsoft Graph...\n",
        .httpGet endpoint ("Bearer " ++ pyStr tok),
        .print ("An error occurred: " ++ e)], [], some e) := by
    cases hh : env.http with
    | error e => exact ⟨e, by simp [fetchStep]⟩
    | ok resp =>
      rw [hh] at hF
      simp only [RequestFails] at hF
      have hrs : raisesForStatus resp.status = true := by
        simp only [raisesForStatus, Bool.and_eq_true, decide_eq_true_eq]
        omega
      exact ⟨"HTTPError: status " ++ toString resp.status, by simp [fetchStep, hrs]⟩
  have h2 : fetch_emails_graph env =
      ((authenticate_graph env.auth).1 ++ (fetchStep tok env.http).1, .ok ()) := by
    rcases ha : authenticate_graph env.auth with ⟨t, r⟩
    rw [ha] at hA
    dsimp only at hA
    subst hA
    simp [fetch_emails_graph, ha, hT]
  refine ⟨h1, h2, ?_⟩
  obtain ⟨e, he⟩ := h1
  rw [h2, httpAttempts_append, (authenticate_counts env.auth).1, he]
  rfl

/-- Witness for C4 (amended) at a concrete 401 response. -/
theorem c4_request_failure_yields_fetch_failure_witness :
    ((authenticate_graph (⟨⟨["acct"], some [("access_token", .str "tok")], [], []⟩,
        .ok ⟨401, .ok (.obj [])⟩⟩ : FetchEnv).auth).2 = .ok (some (.str "tok"))) ∧
    pyTruthy (.str "tok") = true ∧
    RequestFails (⟨⟨["acct"], some [("access_token", .str "tok")], [], []⟩,
        .ok ⟨401, .ok (.obj [])⟩⟩ : FetchEnv).http ∧
    ((∃ e, fetchStep (.str "tok")
        (⟨⟨["acct"], some [("access_token", .str "tok")], [], []⟩,
          .ok ⟨401, .ok (.obj [])⟩⟩ : FetchEnv).http =
        ([.print "\nSuccessfully authenticated! Fetching emails via Microsoft Graph...\n",
          .httpGet endpoint ("Bearer " ++ pyStr (.str "tok")),
          .print ("An error occurred: " ++ e)], [], some e)) ∧
     fetch_emails_graph ⟨⟨["acct"], some [("access_token", .str "tok")], [], []⟩,
        .ok ⟨401, .ok (.obj [])⟩⟩ =
       ((authenticate_graph (⟨⟨["acct"], some [("access_token", .str "tok")], [], []⟩,
           .ok ⟨401, .ok (.obj [])⟩⟩ : FetchEnv).auth).1 ++
        (fetchStep (.str "tok")
          (⟨⟨["acct"], some [("access_token", .str "tok")], [], []⟩,
            .ok ⟨401, .ok (.obj [])⟩⟩ : FetchEnv).http).1, .ok ()) ∧
     httpAttempts (fetch_emails_graph ⟨⟨["acct"], some [("access_token", .str "tok")], [], []⟩,
        .ok ⟨401, .ok (.obj [])⟩⟩).1 = 1) :=
  ⟨rfl, rfl, by norm_num [RequestFails],
   c4_request_failure_yields_fetch_failure
     ⟨⟨["acct"], some [("access_token", .str "tok")], [], []⟩, .ok ⟨401, .ok (.obj [])⟩⟩
     (.str "tok") rfl rfl (by norm_num [RequestFails])⟩

/-- Claim C5: a message object whose `from.emailAddress.address` path is
missing by key absence yields a MessageSummary whose sender is None (the
absent value, printed as the empty marker), and the extraction and the
loop over such a message do not fail. -/
theorem c5_missing_sender_yields_none_sender
    (fs : List (String × Json))
    (h : MissingSenderPath fs) :
    senderOf (.obj fs) = .ok .null ∧
    extractSummary (.obj fs) =
      .ok ⟨.null, dictGet fs "subject" .null, dictGet fs "receivedDateTime" .null,
           dictGet fs "bodyPreview" .null⟩ ∧
    (emailLoop [.obj fs] 1).2.2 = .ok () := by
  have hsend : senderOf (.obj fs) = .ok .null := by
    rcases h with h | ⟨ffs, hfrom, h⟩
    · have hf : dictGet fs "from" (.obj []) = .obj [] :=
        dictGet_of_hasKey_false fs "from" (.obj []) h
      simp [senderOf, pyGet, hf, dictGet, Bind.bind, Except.bind]
    · rcases h with h | ⟨efs, hea, h⟩
      · have he : dictGet ffs "emailAddress" (.obj []) = .obj [] :=
          dictGet_of_hasKey_false ffs "emailAddress" (.obj []) h
        simp [senderOf, pyGet, hfrom, he, dictGet, Bind.bind, Except.bind]
      · have ha : dictGet efs "address" .null = .null :=
          dictGet_of_hasKey_false efs "address" .null h
        simp [senderOf, pyGet, hfrom, hea, ha, Bind.bind, Except.bind]
  have hext : extractSummary (.obj fs) =
      .ok ⟨.null, dictGet fs "subject" .null, dictGet fs "receivedDateTime" .null,
           dictGet fs "bodyPreview" .null⟩ := by
    simp [extractSummary, hsend, pyGet, Bind.bind, Except.bind]
  exact ⟨hsend, hext, by simp [emailLoop, hext]⟩

/-- Witness for C5 at a concrete message with no "from" key. -/
theorem c5_missing_sender_yields_none_sender_witness :
    MissingSenderPath [("subject", Json.str "Anonymous"),
      ("receivedDateTime", Json.str "2024-01-04T00:00:00Z"),
      ("bodyPreview", Json.str "No sender")] ∧
    (senderOf (.obj [("subject", Json.str "Anonymous"),
        ("receivedDateTime", Json.str "2024-01-04T00:00:00Z"),
        ("bodyPreview", Json.str "No sender")]) = .ok .null ∧
     extractSummary (.obj [("subject", Json.str "Anonymous"),
        ("receivedDateTime", Json.str "2024-01-04T00:00:00Z"),
        ("bodyPreview", Json.str "No sender")]) =
       .ok ⟨.null,
            dictGet [("subject", Json.str "Anonymous"),
              ("receivedDateTime", Json.str "2024-01-04T00:00:00Z"),
              ("bodyPreview", Json.str "No sender")] "subject" .null,
            dictGet [("subject", Json.str "Anonymous"),
              ("receivedDateTime", Json.str "2024-01-04T00:00:00Z"),
              ("bodyPreview", Json.str "No sender")] "receivedDateTime" .null,
            dictGet [("subject", Json.str "Anonymous"),
              ("receivedDateTime", Json.str "2024-01-04T00:00:00Z"),
              ("bodyPreview", Json.str "No sender")] "bodyPreview" .null⟩ ∧
     (emailLoop [.obj [("subject", Json.str "Anonymous"),
        ("receivedDateTime", Json.str "2024-01-04T00:00:00Z"),
        ("bodyPreview", Json.str "No sender")]] 1).2.2 = .ok ()) :=
  ⟨Or.inl rfl,
   c5_missing_sender_yields_none_sender
     [("subject", Json.str "Anonymous"),
      ("receivedDateTime", Json.str "2024-01-04T00:00:00Z"),
      ("bodyPreview", Json.str "No sender")]
     (Or.inl rfl)⟩

/-- Claim C6: a successful (2xx) response whose parsed JSON object has no
"value" key is treated as the empty sequence: zero MessageSummary entries
are produced, nothing beyond the fixed prelude is printed, and no error
is reported. -/
theorem c6_missing_value_means_empty
    (token : Json) (resp : HttpResponse) (pfs : List (String × Json))
    (hstatus : 200 ≤ resp.status ∧ resp.status < 300)
    (hbody : resp.body = .ok (.obj pfs))
    (hnoval : hasKey pfs "value" = false) :
    fetchStep token (.ok resp) =
      ([.print "\nSuccessfully authenticated! Fetching emails via Microsoft Graph...\n",
        .httpGet endpoint ("Bearer " ++ pyStr token)], [], none) := by
  have hrs : raisesForStatus resp.status = false := by
    simp only [raisesForStatus, Bool.and_eq_false_iff, decide_eq_false_iff_not]
    left
    omega
  have hval : dictGet pfs "value" (.arr []) = .arr [] :=
    dictGet_of_hasKey_false pfs "value" (.arr []) hnoval
  simp [fetchStep, hrs, hbody, pyGet, hval, pyIter, emailLoop]

/-- Witness for C6 at a concrete empty JSON object body. -/
theorem c6_missing_value_means_empty_witness :
    ((200 : Nat) ≤ 200 ∧ (200 : Nat) < 300) ∧
    hasKey ([] : List (String × Json)) "value" = false ∧
    fetchStep (.str "tok") (.ok ⟨200, .ok (.obj [])⟩) =
      ([.print "\nSuccessfully authenticated! Fetching emails via Microsoft Graph...\n",
        .httpGet endpoint ("Bearer " ++ pyStr (.str "tok"))], [], none) :=
  ⟨⟨by omega, by omega⟩, rfl,
   c6_missing_value_means_empty (.str "tok") ⟨200, .ok (.obj [])⟩ []
     ⟨by decide, by decide⟩ rfl rfl⟩

theorem fetch_ok_of_acquire_ok (env : FetchEnv) (t : List Event) (d : List (String × Json))
    (h : acquireResult env.auth = (t, .ok d)) :
    (fetch_emails_graph env).2 = .ok () := by
  cases hv : (finishAuth d).2 with
  | none => simp [fetch_emails_graph, authenticate_graph, h, hv]
  | some v =>
    by_cases ht : pyTruthy v = true <;>
      simp [fetch_emails_graph, authenticate_graph, h, hv, ht]

/-- Counterexample to C7 as stated: with no cached account and a device
flow response lacking a user code, the deliberate ValueError is raised
outside any try block and escapes as an unhandled fault instead of being
reported inline. -/
theorem c7_counterexample :
    fetch_emails_graph ⟨⟨[], none, [], []⟩, .ok ⟨200, .ok (.obj [])⟩⟩ =
      ([.print "No cached token found. Starting interactive login...", .initiateDeviceFlow],
       .error ("ValueError: Fail to create device flow. Err: \x7b\x7d")) := rfl

/-- Claim C7 (amended): on every run in which authentication reaches its
final result check (a usable cache short-circuit, or a device flow
carrying user_code, message and verification_uri), the program prints its
diagnostics and returns normally; only a failed device-flow initiation
escapes as an uncaught exception. -/
theorem c7_returns_normally_when_flow_completes
    (env : FetchEnv) (h : AuthCompletes env.auth) :
    (fetch_emails_graph env).2 = .ok () := by
  obtain ⟨t, d, hacq⟩ : ∃ t d, acquireResult env.auth = (t, .ok d) := by
    rcases h with ⟨hacc, htr⟩ | ⟨hu, hm, hv⟩
    · have hac : env.auth.accounts.isEmpty = false := by
        cases hq : env.auth.accounts with
        | nil => exact absurd hq hacc
        | cons a l => rfl
      exact ⟨_, _, by simp [acquireResult, hac, htr]; exact ⟨rfl, rfl⟩⟩
    · by_cases hA : env.auth.accounts.isEmpty = true
      · obtain ⟨mv, hmv⟩ := dictItem_of_hasKey _ _ hm
        obtain ⟨uv, huv⟩ := dictItem_of_hasKey _ _ hv
        exact ⟨_, _, by simp [acquireResult, hA, resultTruthy, hu, hmv, huv]; exact ⟨rfl, rfl⟩⟩
      · have hac2 : env.auth.accounts.isEmpty = false := by
          revert hA
          cases env.auth.accounts.isEmpty <;> simp
        by_cases hT : resultTruthy env.auth.silentResult = true
        · exact ⟨_, _, by simp [acquireResult, hac2, hT]; exact ⟨rfl, rfl⟩⟩
        · have hT2 : resultTruthy env.auth.silentResult = false := by
            revert hT
            cases resultTruthy env.auth.silentResult <;> simp
          obtain ⟨mv, hmv⟩ := dictItem_of_hasKey _ _ hm
          obtain ⟨uv, huv⟩ := dictItem_of_hasKey _ _ hv
          exact ⟨_, _, by simp [acquireResult, hac2, hT2, hu, hmv, huv]; exact ⟨rfl, rfl⟩⟩
  exact fetch_ok_of_acquire_ok env t d hacq

/-- Witness for C7 (amended) at a concrete cached-token environment. -/
theorem c7_returns_normally_when_flow_completes_witness :
    AuthCompletes (⟨⟨["acct"], some [("access_token", .str "tok")], [], []⟩,
      .ok ⟨200, .ok (.obj [])⟩⟩ : FetchEnv).auth ∧
    (fetch_emails_graph ⟨⟨["acct"], some [("access_token", .str "tok")], [], []⟩,
      .ok ⟨200, .ok (.obj [])⟩⟩).2 = .ok () :=
  ⟨Or.inl ⟨List.cons_ne_nil _ _, rfl⟩,
   c7_returns_normally_when_flow_completes
     ⟨⟨["acct"], some [("access_token", .str "tok")], [], []⟩, .ok ⟨200, .ok (.obj [])⟩⟩
     (Or.inl ⟨List.cons_ne_nil _ _, rfl⟩)⟩

/-- Counterexample to C10 as stated: with a well-formed first message and
a second message whose "from" key is bound to null, the failing message
is partly printed: its numbered header line appears on the console before
the single error line.  The claim said that message is not printed at
all. -/
theorem c10_counterexample :
    printsOf (fetchStep (.str "tok")
        (.ok ⟨200, .ok (.obj [("value", .arr [msgA, msgNullFrom])])⟩)).1 =
      ["\nSuccessfully authenticated! Fetching emails via Microsoft Graph...\n",
       "--- Email 1 ---",
       "From:    alice@example.com",
       "Subject: Hello",
       "Date:    2024-01-02T03:04:05Z",
       "Preview: Hi there",
       "",
       "--- Email 2 ---",
       "An error occurred: AttributeError: NoneType object has no attribute get"] ∧
    "--- Email 2 ---" ∈ printsOf (fetchStep (.str "tok")
        (.ok ⟨200, .ok (.obj [("value", .arr [msgA, msgNullFrom])])⟩)).1 := by
  have h : printsOf (fetchStep (.str "tok")
      (.ok ⟨200, .ok (.obj [("value", .arr [msgA, msgNullFrom])])⟩)).1 =
      ["\nSuccessfully authenticated! Fetching emails via Microsoft Graph...\n",
       "--- Email 1 ---",
       "From:    alice@example.com",
       "Subject: Hello",
       "Date:    2024-01-02T03:04:05Z",
       "Preview: Hi there",
       "",
       "--- Email 2 ---",
       "An error occurred: AttributeError: NoneType object has no attribute get"] := rfl
  refine ⟨h, ?_⟩
  rw [h]
  simp

/-- Claim C10 (amended): when a message object's "from" key is present
but bound to null, the loop prints the blocks of all earlier well-formed
messages, then the failing message's numbered header line, then converts
the AttributeError into the single error line; none of the failing
message's fields and none of the subsequent messages are printed, and the
run does not crash (the exception is caught). -/
theorem c10_null_from_stops_loop_after_header
    (token : Json) (resp : HttpResponse) (pfs : List (String × Json))
    (good : List Json) (qs : List (String × String × String × String))
    (badfs : List (String × Json)) (rest : List Json)
    (hstatus : 200 ≤ resp.status ∧ resp.status < 300)
    (hbody : resp.body = .ok (.obj pfs))
    (hvalue : dictGet pfs "value" (.arr []) = .arr (good ++ .obj badfs :: rest))
    (hgood : List.Forall₂ HasFields good qs)
    (hbad : dictGet badfs "from" (.obj []) = .null) :
    fetchStep token (.ok resp) =
      (.print "\nSuccessfully authenticated! Fetching emails via Microsoft Graph...\n" ::
       .httpGet endpoint ("Bearer " ++ pyStr token) ::
       (joinBlocks 1 qs ++
        [.print ("--- Email " ++ toString (1 + good.length) ++ " ---"),
         .print "An error occurred: AttributeError: NoneType object has no attribute get"]),
       summariesOfQuads qs,
       some "AttributeError: NoneType object has no attribute get") ∧
    hasKey badfs "from" = true := by
  have hrs : raisesForStatus resp.status = false := by
    simp only [raisesForStatus, Bool.and_eq_false_iff, decide_eq_false_iff_not]
    left
    omega
  have hbadext : extractSummary (.obj badfs) =
      .error "AttributeError: NoneType object has no attribute get" := by
    simp [extractSummary, senderOf, pyGet, hbad, Bind.bind, Except.bind]
  have hloop := emailLoop_append_forall₂ good qs hgood (.obj badfs :: rest) 1
  have hbadloop : emailLoop (.obj badfs :: rest) (1 + good.length) =
      ([.print ("--- Email " ++ toString (1 + good.length) ++ " ---")], [],
       .error "AttributeError: NoneType object has no attribute get") := by
    simp [emailLoop, hbadext]
  rw [hbadloop] at hloop
  constructor
  · simp [fetchStep, hrs, hbody, pyGet, hvalue, pyIter, hloop]
  · by_cases hk : hasKey badfs "from" = true
    · exact hk
    · exfalso
      have hk2 : hasKey badfs "from" = false := by
        revert hk
        cases hasKey badfs "from" <;> simp
      have := dictGet_of_hasKey_false badfs "from" (.obj []) hk2
      rw [this] at hbad
      exact Json.noConfusion hbad

/-- Witness for C10 (amended) at a concrete two-message payload whose
second message has "from" bound to null. -/
theorem c10_null_from_stops_loop_after_header_witness :
    ((200 : Nat) ≤ 200 ∧ (200 : Nat) < 300) ∧
    dictGet [("value", Json.arr [msgA, msgNullFrom])] "value" (.arr []) =
      .arr ([msgA] ++ .obj [("from", Json.null),
        ("subject", Json.str "Broken"),
        ("receivedDateTime", Json.str "2024-01-03T00:00:00Z"),
        ("bodyPreview", Json.str "Oops")] :: []) ∧
    dictGet [("from", Json.null),
        ("subject", Json.str "Broken"),
        ("receivedDateTime", Json.str "2024-01-03T00:00:00Z"),
        ("bodyPreview", Json.str "Oops")] "from" (.obj []) = .null ∧
    (fetchStep (.str "tok") (.ok ⟨200, .ok (.obj [("value", .arr [msgA, msgNullFrom])])⟩) =
      (.print "\nSuccessfully authenticated! Fetching emails via Microsoft Graph...\n" ::
       .httpGet endpoint ("Bearer " ++ pyStr (.str "tok")) ::
       (joinBlocks 1 [quadA] ++
        [.print ("--- Email " ++ toString (1 + ([msgA] : List Json).length) ++ " ---"),
         .print "An error occurred: AttributeError: NoneType object has no attribute get"]),
       summariesOfQuads [quadA],
       some "AttributeError: NoneType object has no attribute get") ∧
     hasKey [("from", Json.null),
        ("subject", Json.str "Broken"),
        ("receivedDateTime", Json.str "2024-01-03T00:00:00Z"),
        ("bodyPreview", Json.str "Oops")] "from" = true) :=
  ⟨⟨by omega, by omega⟩, rfl, rfl,
   c10_null_from_stops_loop_after_header (.str "tok")
     ⟨200, .ok (.obj [("value", .arr [msgA, msgNullFrom])])⟩
     [("value", .arr [msgA, msgNullFrom])]
     [msgA] [quadA]
     [("from", Json.null),
      ("subject", Json.str "Broken"),
      ("receivedDateTime", Json.str "2024-01-03T00:00:00Z"),
      ("bodyPreview", Json.str "Oops")]
     []
     ⟨by decide, by decide⟩ rfl rfl (.cons hasFields_msgA .nil) rfl⟩

theorem setTok_nil (v : Json) : setTok v [] = [] := rfl

theorem setTok_cons (v : Json) (kv : String × Json) (rest : List (String × Json)) :
    setTok v (kv :: rest) =
      (if kv.1 = "access_token" then (kv.1, v) else kv) :: setTok v rest := rfl

theorem hasKey_setTok (v : Json) (d : List (String × Json)) (k : String) :
    hasKey (setTok v d) k = hasKey d k := by
  induction d with
  | nil => rfl
  | cons kv rest ih =>
    simp only [setTok] at ih ⊢
    by_cases h : kv.1 = "access_token" <;> simp [hasKey, h, ih]

theorem dictGet_setTok_ne (v : Json) (d : List (String × Json)) (k : String) (dflt : Json)
    (h : k ≠ "access_token") :
    dictGet (setTok v d) k dflt = dictGet d k dflt := by
  induction d with
  | nil => rfl
  | cons kv rest ih =>
    simp only [setTok] at ih ⊢
    by_cases hk : kv.1 = "access_token"
    · simp [dictGet, hk, Ne.symm h, ih]
    · simp [dictGet, hk, ih]

theorem dictGet_setTok_tok (v : Json) (d : List (String × Json)) (dflt : Json)
    (h : hasKey d "access_token" = true) :
    dictGet (setTok v d) "access_token" dflt = v := by
  induction d with
  | nil => simp [hasKey] at h
  | cons kv rest ih =>
    simp only [setTok] at ih ⊢
    by_cases hk : kv.1 = "access_token"
    · simp [dictGet, hk]
    · have h2 : hasKey rest "access_token" = true := by
        simp [hasKey, hk] at h
        exact h
      simp [dictGet, hk, ih h2]

theorem isEmpty_setTok (v : Json) (d : List (String × Json)) :
    (setTok v d).isEmpty = d.isEmpty := by
  cases d <;> rfl

theorem resultTruthy_setTok (v : Json) (o : Option (List (String × Json))) :
    resultTruthy (o.map (setTok v)) = resultTruthy o := by
  cases o <;> simp [resultTruthy, isEmpty_setTok]

theorem setToken_auth (v : Json) (env : FetchEnv) :
    (setToken v env).auth = setTokAuth v env.auth := rfl

theorem setToken_http (v : Json) (env : FetchEnv) :
    (setToken v env).http = env.http := rfl

theorem acquireResult_setTokAuth (v : Json) (a : AuthEnv) :
    acquireResult (setTokAuth v a) =
      ((acquireResult a).1, (acquireResult a).2.map (setTok v)) := by
  rcases hs : a.silentResult with _ | d
  · unfold acquireResult setTokAuth
    rcases hm : dictItem a.deviceFlow "message" with e | mv <;>
    rcases hu : dictItem a.deviceFlow "verification_uri" with e2 | uv <;>
    by_cases hA : a.accounts.isEmpty = true <;>
    by_cases hK : hasKey a.deviceFlow "user_code" = true <;>
    simp [hm, hu, hA, hK, hs, resultTruthy, Except.map]
  · unfold acquireResult setTokAuth
    rcases hm : dictItem a.deviceFlow "message" with e | mv <;>
    rcases hu : dictItem a.deviceFlow "verification_uri" with e2 | uv <;>
    by_cases hA : a.accounts.isEmpty = true <;>
    by_cases hK : hasKey a.deviceFlow "user_code" = true <;>
    by_cases hE : d.isEmpty = true <;>
    simp [hm, hu, hA, hK, hE, hs, resultTruthy, isEmpty_setTok, Except.map]

theorem finishAuth_setTok (v : Json) (d : List (String × Json)) :
    finishAuth (setTok v d) =
      ((finishAuth d).1, if hasKey d "access_token" = true then some v else none) := by
  by_cases h : hasKey d "access_token" = true
  · simp [finishAuth, hasKey_setTok, h, dictGet_setTok_tok v d .null h]
  · have h2 : hasKey d "access_token" = false := by
      revert h
      cases hasKey d "access_token" <;> simp
    simp [finishAuth, hasKey_setTok, h2,
      dictGet_setTok_ne v d "error" .null (by decide),
      dictGet_setTok_ne v d "error_description" .null (by decide)]

theorem authenticate_setTokAuth (v : Json) (a : AuthEnv) :
    authenticate_graph (setTokAuth v a) =
      ((authenticate_graph a).1,
       (authenticate_graph a).2.map fun o => o.map fun _ => v) := by
  rcases h : acquireResult a with ⟨t, r⟩
  have h2 := acquireResult_setTokAuth v a
  rw [h] at h2
  dsimp only at h2
  cases r with
  | error e => simp [authenticate_graph, h, h2, Except.map]
  | ok d =>
    simp [authenticate_graph, h, h2, Except.map, finishAuth_setTok]
    by_cases hk : hasKey d "access_token" = true <;> simp [finishAuth, hk]

theorem printsOf_append (a b : List Event) :
    printsOf (a ++ b) = printsOf a ++ printsOf b := by
  simp [printsOf]

theorem fetchStep_token_independent (v1 v2 : Json) (http : Except String HttpResponse) :
    printsOf (fetchStep v1 http).1 = printsOf (fetchStep v2 http).1 := by
  cases http with
  | error e => rfl
  | ok resp =>
    by_cases hrs : raisesForStatus resp.status = true
    · simp [fetchStep, hrs, printsOf]
    · have hrs2 : raisesForStatus resp.status = false := by
        revert hrs
        cases raisesForStatus resp.status <;> simp
      rcases hb : resp.body with e | payload
      · simp [fetchStep, hrs2, hb, printsOf]
      · rcases hv : pyGet payload "value" (.arr []) with e3 | value
        · simp [fetchStep, hrs2, hb, hv, printsOf]
        · rcases hi : pyIter value with e4 | emails
          · simp [fetchStep, hrs2, hb, hv, hi, printsOf]
          · rcases hl : emailLoop emails 1 with ⟨lt, ls, lr⟩
            cases lr with
            | error e5 => simp [fetchStep, hrs2, hb, hv, hi, hl, printsOf]
            | ok uu => simp [fetchStep, hrs2, hb, hv, hi, hl, printsOf]

theorem emailLoop_prints_only (emails : List Json) :
    ∀ (i : Nat) (e : Event), e ∈ (emailLoop emails i).1 → ∃ s, e = .print s := by
  induction emails with
  | nil =>
    intro i e h
    simp [emailLoop] at h
  | cons em rest ih =>
    intro i e h
    rcases hx : extractSummary em with er | s0 <;>
      simp only [emailLoop, hx] at h
    · simp at h
      exact ⟨_, h⟩
    · rcases List.mem_append.mp h with h5 | h5
      · simp at h5
        rcases h5 with h5 | h5 | h5 | h5 | h5 | h5 <;> exact ⟨_, h5⟩
      · exact ih (i + 1) e h5

theorem not_mem_httpGet_of_zero (tr : List Event) (hz : httpAttempts tr = 0) (u h : String) :
    Event.httpGet u h ∉ tr := by
  intro hmem
  simp only [httpAttempts] at hz
  have hf : tr.filter (fun e => match e with | Event.httpGet _ _ => true | _ => false) = [] :=
    List.length_eq_zero.mp hz
  have hin : Event.httpGet u h ∈
      tr.filter (fun e => match e with | Event.httpGet _ _ => true | _ => false) :=
    List.mem_filter.mpr ⟨hmem, rfl⟩
  rw [hf] at hin
  exact List.not_mem_nil _ hin

theorem httpGet_mem_fetchStep (v : Json) (http : Except String HttpResponse) (u h : String)
    (hmem : Event.httpGet u h ∈ (fetchStep v http).1) :
    u = endpoint ∧ h = "Bearer " ++ pyStr v := by
  cases http with
  | error e =>
    simp [fetchStep] at hmem
    exact hmem
  | ok resp =>
    by_cases hrs : raisesForStatus resp.status = true
    · simp [fetchStep, hrs] at hmem
      exact hmem
    · have hrs2 : raisesForStatus resp.status = false := by
        revert hrs
        cases raisesForStatus resp.status <;> simp
      rcases hb : resp.body with e | payload
      · simp [fetchStep, hrs2, hb] at hmem
        exact hmem
      · rcases hv : pyGet payload "value" (.arr []) with e3 | value
        · simp [fetchStep, hrs2, hb, hv] at hmem
          exact hmem
        · rcases hi : pyIter value with e4 | emails
          · simp [fetchStep, hrs2, hb, hv, hi] at hmem
            exact hmem
          · rcases hl : emailLoop emails 1 with ⟨lt, ls, lr⟩
            have hlt : ∀ e0 ∈ lt, ∃ s, e0 = Event.print s := by
              intro e0 he
              exact emailLoop_prints_only emails 1 e0 (by rw [hl]; exact he)
            cases lr with
            | error e5 =>
              simp [fetchStep, hrs2, hb, hv, hi, hl] at hmem
              rcases hmem with h5 | h5
              · exact h5
              · obtain ⟨s, hs⟩ := hlt _ h5
                simp at hs
            | ok uu =>
              simp [fetchStep, hrs2, hb, hv, hi, hl] at hmem
              rcases hmem with h5 | h5
              · exact h5
              · obtain ⟨s, hs⟩ := hlt _ h5
                simp at hs

/-- Claim C8: the console output of a run does not depend on the value of
the access token the identity library delivers (so the bearer token is
never written to console output), and every HTTP request event of the run
carries the token only in its Authorization header, as `Bearer` followed
by the token. -/
theorem c8_token_only_in_auth_header (env : FetchEnv) (v1 v2 : Json)
    (ht1 : pyTruthy v1 = true) (ht2 : pyTruthy v2 = true) :
    printsOf (fetch_emails_graph (setToken v1 env)).1 =
      printsOf (fetch_emails_graph (setToken v2 env)).1 ∧
    (∀ u h, Event.httpGet u h ∈ (fetch_emails_graph (setToken v1 env)).1 →
       u = endpoint ∧ h = "Bearer " ++ pyStr v1) := by
  rcases ha : authenticate_graph env.auth with ⟨t, r⟩
  have hz : httpAttempts t = 0 := by
    have hzc := (authenticate_counts env.auth).1
    rw [ha] at hzc
    exact hzc
  have hA1 := authenticate_setTokAuth v1 env.auth
  have hA2 := authenticate_setTokAuth v2 env.auth
  rw [ha] at hA1 hA2
  dsimp only at hA1 hA2
  constructor
  · cases r with
    | error e =>
      simp [fetch_emails_graph, setToken_auth, hA1, hA2, Except.map]
    | ok o =>
      cases o with
      | none =>
        simp [fetch_emails_graph, setToken_auth, hA1, hA2, Except.map]
      | some w =>
        simp [fetch_emails_graph, setToken_auth, setToken_http, hA1, hA2, Except.map,
          ht1, ht2, printsOf_append, fetchStep_token_independent v1 v2 env.http]
  · intro u hh hmem
    cases r with
    | error e =>
      rw [show fetch_emails_graph (setToken v1 env) = (t, .error e) from by
        simp [fetch_emails_graph, setToken_auth, hA1, Except.map]] at hmem
      exact absurd hmem (not_mem_httpGet_of_zero t hz u hh)
    | ok o =>
      cases o with
      | none =>
        rw [show fetch_emails_graph (setToken v1 env) =
            (t ++ [.print "Authentication failed. Exiting."], .ok ()) from by
          simp [fetch_emails_graph, setToken_auth, hA1, Except.map]] at hmem
        rcases List.mem_append.mp hmem with h5 | h5
        · exact absurd h5 (not_mem_httpGet_of_zero t hz u hh)
        · simp at h5
      | some w =>
        rw [show fetch_emails_graph (setToken v1 env) =
            (t ++ (fetchStep v1 env.http).1, .ok ()) from by
          simp [fetch_emails_graph, setToken_auth, setToken_http, hA1, Except.map, ht1]] at hmem
        rcases List.mem_append.mp hmem with h5 | h5
        · exact absurd h5 (not_mem_httpGet_of_zero t hz u hh)
        · exact httpGet_mem_fetchStep v1 env.http u hh h5

/-- Witness for C8 at a concrete cached environment and two concrete
token values. -/
theorem c8_token_only_in_auth_header_witness :
    pyTruthy (Json.str "token-one") = true ∧
    pyTruthy (Json.str "token-two") = true ∧
    (printsOf (fetch_emails_graph (setToken (.str "token-one")
        ⟨⟨["acct"], some [("access_token", .str "orig")], [], []⟩,
         .ok ⟨200, .ok (.obj [])⟩⟩)).1 =
       printsOf (fetch_emails_graph (setToken (.str "token-two")
        ⟨⟨["acct"], some [("access_token", .str "orig")], [], []⟩,
         .ok ⟨200, .ok (.obj [])⟩⟩)).1 ∧
     (∀ u h, Event.httpGet u h ∈ (fetch_emails_graph (setToken (.str "token-one")
        ⟨⟨["acct"], some [("access_token", .str "orig")], [], []⟩,
         .ok ⟨200, .ok (.obj [])⟩⟩)).1 →
        u = endpoint ∧ h = "Bearer " ++ pyStr (.str "token-one"))) :=
  ⟨rfl, rfl,
   c8_token_only_in_auth_header
     ⟨⟨["acct"], some [("access_token", .str "orig")], [], []⟩, .ok ⟨200, .ok (.obj [])⟩⟩
     (.str "token-one") (.str "token-two") rfl rfl⟩

end FetchEmailsGraph
